import Mathlib

/-
Verification of the error classifier in src/services/errorHandler.ts
(exported function handleApiError).

Embedding conventions:
- RawError models the unknown value passed to handleApiError: errObj carries
  the message of an Error instance, other carries the String conversion of any
  non-Error value; only these strings are consumed by the function.
- The two observable side effects, triggerErrorWebhook(error) and
  eventBus.dispatch(signal), are recorded in order in a list of Event values,
  and the function returns the display string paired with that trace. The
  console.error logging call is treated as non-observable.
- jsIncludes, jsToLowerCase and jsFirstLine model String.prototype.includes,
  String.prototype.toLowerCase and message.split with a newline taking index 0.
  Lowercasing is modelled on ASCII letters and lengths count code points; the
  phrases and bounds used by the classifier are all ASCII.
- jsonSpan models the greedy regex that captures the span from the first
  opening brace to the last closing brace, with the dotall flag. jsonParseTop
  together with parseValue models JSON.parse as a fuelled recursive-descent
  reading of the JSON grammar; it throws, i.e. returns Except.error, exactly
  on texts the grammar rejects. A parsed number stores its exact integer value
  when it has one of magnitude at most 2 to the 53 (the range in which the
  double-based String conversion of the host language prints the plain decimal
  integer) and otherwise keeps its source lexeme.
- jsErrorCode models the optional-chaining access errorObj?.error?.code with
  the truthiness test, and jsToString models the String conversion applied to
  the extracted code value, including the host conventions for objects,
  arrays and booleans. Duplicate object keys keep the last binding, as in
  JSON.parse.
- findNumericCode models the first match of the numeric-code regex: either a
  bracketed three-digit group or a standalone three-digit group delimited by
  word boundaries, tried left to right with the bracketed alternative first
  at each position.
-/

/-- Raw error value passed to the handler. -/
inductive RawError where
  | errObj (message : String)
  | other (stringRep : String)
deriving DecidableEq

/-- Observable side effects, in order. -/
inductive Event where
  | webhook (e : RawError)
  | dispatch (signal : String)
deriving DecidableEq

def normalizeMessage : RawError → String
  | RawError.errObj m => m
  | RawError.other s => s

def hasSubList (sub : List Char) : List Char → Bool
  | [] => sub.isEmpty
  | c :: rest => sub.isPrefixOf (c :: rest) || hasSubList sub rest

def jsIncludes (s sub : String) : Bool :=
  hasSubList sub.toList s.toList

def jsToLowerCase (s : String) : String :=
  String.mk (s.toList.map Char.toLower)

def jsFirstLine (s : String) : String :=
  String.mk (s.toList.takeWhile (fun c => c != '\n'))

/-- JSON value model. -/
inductive Json where
  | null
  | bool (b : Bool)
  | num (intVal : Option Int) (raw : String)
  | str (s : String)
  | arr (elems : List Json)
  | obj (fields : List (String × Json))

def isJsonWs (c : Char) : Bool :=
  c.toNat == 32 || c.toNat == 9 || c.toNat == 10 || c.toNat == 13

def skipWs (cs : List Char) : List Char :=
  cs.dropWhile isJsonWs

def hexDigitVal (c : Char) : Option Nat :=
  let n := c.toNat
  if 48 ≤ n ∧ n ≤ 57 then some (n - 48)
  else if 97 ≤ n ∧ n ≤ 102 then some (n - 87)
  else if 65 ≤ n ∧ n ≤ 70 then some (n - 55)
  else none

def jsonEscapeTable : List (Char × Char) :=
  [('"', '"'), ('\\', '\\'), ('/', '/'), ('b', Char.ofNat 8), ('f', Char.ofNat 12),
    ('n', Char.ofNat 10), ('r', Char.ofNat 13), ('t', Char.ofNat 9)]

def jsonEscapeChar (c : Char) : Option Char :=
  (jsonEscapeTable.find? (fun p => p.1 == c)).map (fun p => p.2)

def parseStringBody : List Char → Except Unit (List Char × List Char)
  | [] => Except.error ()
  | '"' :: rest => Except.ok ([], rest)
  | '\\' :: escaped =>
    match escaped with
    | 'u' :: h1 :: h2 :: h3 :: h4 :: tl =>
      match hexDigitVal h1, hexDigitVal h2, hexDigitVal h3, hexDigitVal h4 with
      | some a, some b, some c, some d =>
        (parseStringBody tl).map
          (fun p => (Char.ofNat (((a * 16 + b) * 16 + c) * 16 + d) :: p.1, p.2))
      | _, _, _, _ => Except.error ()
    | e :: tl =>
      match jsonEscapeChar e with
      | some c => (parseStringBody tl).map (fun p => (c :: p.1, p.2))
      | none => Except.error ()
    | [] => Except.error ()
  | c :: rest =>
    if c.toNat < 32 then Except.error ()
    else (parseStringBody rest).map (fun p => (c :: p.1, p.2))

def digitsToNat (ds : List Char) : Nat :=
  ds.foldl (fun a d => 10 * a + (d.toNat - 48)) 0

def jsNumIntVal (neg : Bool) (intDs fracDs : List Char) (exp : Int) : Option Int :=
  let mant : Nat := digitsToNat (intDs ++ fracDs)
  let scale : Int := exp - fracDs.length
  if mant = 0 then some 0
  else if 0 ≤ scale then
    let v : Nat := mant * 10 ^ scale.toNat
    if v ≤ 2 ^ 53 then some (if neg then -(v : Int) else (v : Int)) else none
  else
    let k : Nat := (-scale).toNat
    if mant % 10 ^ k = 0 then
      let v := mant / 10 ^ k
      if v ≤ 2 ^ 53 then some (if neg then -(v : Int) else (v : Int)) else none
    else none

def parseFrac : List Char → Except Unit (List Char × List Char)
  | '.' :: r =>
    let p := r.span Char.isDigit
    if p.1.isEmpty then Except.error () else Except.ok p
  | r => Except.ok ([], r)

def parseExpTail (r : List Char) : Except Unit (Int × List Char) :=
  let sp : Bool × List Char :=
    match r with
    | '+' :: t => (false, t)
    | '-' :: t => (true, t)
    | _ => (false, r)
  let p := sp.2.span Char.isDigit
  if p.1.isEmpty then Except.error ()
  else Except.ok (if sp.1 then -(digitsToNat p.1 : Int) else (digitsToNat p.1 : Int), p.2)

def parseExp : List Char → Except Unit (Int × List Char)
  | 'e' :: r => parseExpTail r
  | 'E' :: r => parseExpTail r
  | r => Except.ok (0, r)

def splitSign : List Char → Bool × List Char
  | '-' :: tl => (true, tl)
  | cs => (false, cs)

def parseNumber (cs : List Char) : Except Unit (Json × List Char) :=
  let sgn := splitSign cs
  let intPart : Except Unit (List Char × List Char) :=
    match sgn.2 with
    | '0' :: r => Except.ok (['0'], r)
    | c :: _ => if c.isDigit then Except.ok (sgn.2.span Char.isDigit) else Except.error ()
    | [] => Except.error ()
  match intPart with
  | Except.error _ => Except.error ()
  | Except.ok (intDs, r1) =>
    match parseFrac r1 with
    | Except.error _ => Except.error ()
    | Except.ok (fracDs, r2) =>
      match parseExp r2 with
      | Except.error _ => Except.error ()
      | Except.ok (exp, r3) =>
        let raw := String.mk (cs.take (cs.length - r3.length))
        Except.ok (Json.num (jsNumIntVal sgn.1 intDs fracDs exp) raw, r3)

mutual

def parseValue : Nat → List Char → Except Unit (Json × List Char)
  | 0, _ => Except.error ()
  | fuel + 1, cs =>
    if ['n', 'u', 'l', 'l'].isPrefixOf cs then Except.ok (Json.null, cs.drop 4)
    else if ['t', 'r', 'u', 'e'].isPrefixOf cs then Except.ok (Json.bool true, cs.drop 4)
    else if ['f', 'a', 'l', 's', 'e'].isPrefixOf cs then Except.ok (Json.bool false, cs.drop 5)
    else
    match cs with
    | '"' :: r => (parseStringBody r).map (fun p => (Json.str (String.mk p.1), p.2))
    | '[' :: r =>
      match skipWs r with
      | ']' :: r2 => Except.ok (Json.arr [], r2)
      | r2 => (parseArrayItems fuel r2).map (fun p => (Json.arr p.1, p.2))
    | '{' :: r =>
      match skipWs r with
      | '}' :: r2 => Except.ok (Json.obj [], r2)
      | r2 => (parseObjectMembers fuel r2).map (fun p => (Json.obj p.1, p.2))
    | _ => parseNumber cs

def parseArrayItems : Nat → List Char → Except Unit (List Json × List Char)
  | 0, _ => Except.error ()
  | fuel + 1, cs =>
    match parseValue fuel (skipWs cs) with
    | Except.error _ => Except.error ()
    | Except.ok (v, r1) =>
      match skipWs r1 with
      | ',' :: r2 => (parseArrayItems fuel r2).map (fun p => (v :: p.1, p.2))
      | ']' :: r2 => Except.ok ([v], r2)
      | _ => Except.error ()

def parseObjectMembers : Nat → List Char → Except Unit (List (String × Json) × List Char)
  | 0, _ => Except.error ()
  | fuel + 1, cs =>
    match skipWs cs with
    | '"' :: r =>
      match parseStringBody r with
      | Except.error _ => Except.error ()
      | Except.ok (key, r1) =>
        match skipWs r1 with
        | ':' :: r2 =>
          match parseValue fuel (skipWs r2) with
          | Except.error _ => Except.error ()
          | Except.ok (v, r3) =>
            match skipWs r3 with
            | ',' :: r4 => (parseObjectMembers fuel r4).map (fun p => ((String.mk key, v) :: p.1, p.2))
            | '}' :: r4 => Except.ok ([(String.mk key, v)], r4)
            | _ => Except.error ()
        | _ => Except.error ()
    | _ => Except.error ()

end

def jsonParseTop (cs : List Char) : Except Unit Json :=
  match parseValue (cs.length + 1) (skipWs cs) with
  | Except.error _ => Except.error ()
  | Except.ok (v, rest) =>
    if (skipWs rest).isEmpty then Except.ok v else Except.error ()

def lookupLast (fields : List (String × Json)) (name : String) : Option Json :=
  fields.foldl (fun acc p => if p.1 = name then some p.2 else acc) none

def jsGetField : Json → String → Option Json
  | Json.obj fields, name => lookupLast fields name
  | _, _ => none

def jsTruthy : Json → Bool
  | Json.null => false
  | Json.bool b => b
  | Json.num (some n) _ => n != 0
  | Json.num none _ => true
  | Json.str s => s != ""
  | Json.arr _ => true
  | Json.obj _ => true

mutual

def jsToString : Json → String
  | Json.null => "null"
  | Json.bool b => cond b "true" "false"
  | Json.num (some n) _ => toString n
  | Json.num none raw => raw
  | Json.str s => s
  | Json.obj _ => "[object Object]"
  | Json.arr xs => jsArrJoin xs

def jsArrJoin : List Json → String
  | [] => ""
  | [Json.null] => ""
  | [v] => jsToString v
  | Json.null :: rest => "," ++ jsArrJoin rest
  | v :: rest => jsToString v ++ "," ++ jsArrJoin rest

end

def jsonSpan (cs : List Char) : Option (List Char) :=
  match cs.findIdx? (· == '{'), (cs.reverse.findIdx? (· == '}')).map (fun k => cs.length - 1 - k) with
  | some i, some j => if i < j then some ((cs.drop i).take (j - i + 1)) else none
  | _, _ => none

def jsErrorCode (v : Json) : Option String :=
  match (jsGetField v "error").bind (fun e => jsGetField e "code") with
  | none => none
  | some c => if jsTruthy c then some (jsToString c) else none

def extractJsonCodeE (message : String) : Except Unit (Option String) :=
  match jsonSpan message.toList with
  | none => Except.ok none
  | some sub => (jsonParseTop sub).map jsErrorCode

def extractJsonCode (message : String) : Option String :=
  match extractJsonCodeE message with
  | Except.ok r => r
  | Except.error _ => none

def isWordChar (c : Char) : Bool :=
  c.isAlphanum || c == '_'

def tryBracketCode : List Char → Option String
  | '[' :: d1 :: d2 :: d3 :: ']' :: _ =>
    if d1.isDigit && d2.isDigit && d3.isDigit then some (String.mk [d1, d2, d3]) else none
  | _ => none

def tryBareCode (prevIsWord : Bool) : List Char → Option String
  | d1 :: d2 :: d3 :: rest =>
    if !prevIsWord && d1.isDigit && d2.isDigit && d3.isDigit &&
        (match rest with | [] => true | c :: _ => !isWordChar c) then
      some (String.mk [d1, d2, d3])
    else none
  | _ => none

def findNumericCodeAux : Bool → List Char → Option String
  | _, [] => none
  | prevIsWord, c :: rest =>
    match tryBracketCode (c :: rest) with
    | some s => some s
    | none =>
      match tryBareCode prevIsWord (c :: rest) with
      | some s => some s
      | none => findNumericCodeAux (isWordChar c) rest

def findNumericCode (cs : List Char) : Option String :=
  findNumericCodeAux false cs

def detectCodeFallback (message lowerCaseMessage : String) : Option String :=
  match findNumericCode message.toList with
  | some c => some c
  | none =>
    if jsIncludes lowerCaseMessage "permission denied" = true ∨
        jsIncludes lowerCaseMessage "api key not valid" = true then some "403"
    else if jsIncludes lowerCaseMessage "bad request" = true then some "400"
    else if jsIncludes lowerCaseMessage "server error" = true ∨
        jsIncludes lowerCaseMessage "503" = true then some "500"
    else if jsIncludes lowerCaseMessage "failed to fetch" = true then some "NET"
    else none

def detectErrorCode (message lowerCaseMessage : String) : Option String :=
  if jsIncludes lowerCaseMessage "resource exhausted" = true ∨
      jsIncludes lowerCaseMessage "quota exceeded" = true then some "429"
  else if jsIncludes lowerCaseMessage "bad request" = true ∧
      (jsIncludes lowerCaseMessage "safety" = true ∨ jsIncludes lowerCaseMessage "filter" = true) then
    some "400"
  else
    match extractJsonCode message with
    | some c => some c
    | none => detectCodeFallback message lowerCaseMessage

def detectErrorCodeE (message lowerCaseMessage : String) : Except Unit (Option String) :=
  if jsIncludes lowerCaseMessage "resource exhausted" = true ∨
      jsIncludes lowerCaseMessage "quota exceeded" = true then Except.ok (some "429")
  else if jsIncludes lowerCaseMessage "bad request" = true ∧
      (jsIncludes lowerCaseMessage "safety" = true ∨ jsIncludes lowerCaseMessage "filter" = true) then
    Except.ok (some "400")
  else
    (Except.tryCatch (extractJsonCodeE message) (fun _ => Except.ok none)).map
      (fun fromJson =>
        match fromJson with
        | some c => some c
        | none => detectCodeFallback message lowerCaseMessage)

def defaultFallback (message : String) : String :=
  if 150 < (jsFirstLine message).length ∨
      jsIncludes (jsFirstLine message) "[GoogleGenerativeAI Error]" = true then
    "An unexpected error occurred. Please try again. If the problem persists, check the AI API Log for details."
  else jsFirstLine message

def cannedMessage (errorCode : Option String) (message : String) : String :=
  if errorCode = some "400" then
    "Request blocked by safety filters. Please try a different prompt or image."
  else if errorCode = some "429" then
    "Server Penuh. Sila tunggu sebentar sebelum mencuba lagi."
  else if errorCode = some "500" ∨ errorCode = some "503" then
    "Google API is temporarily unavailable. Please try again in a few moments."
  else if errorCode = some "NET" then
    "Network error. Please check your internet connection."
  else defaultFallback message

def classifyResult (error : RawError) (message lowerCaseMessage : String)
    (errorCode : Option String) : String × List Event :=
  if (errorCode = some "403" ∨ errorCode = some "401") ∧
      jsIncludes lowerCaseMessage "veo auth token" = true then
    ("VEO authorization failed. Please try again or check your API key.",
      [Event.webhook error, Event.dispatch "initiateAutoVeoKeyClaim"])
  else if (errorCode = some "403" ∨ errorCode = some "401") ∨
      (errorCode = some "400" ∧ jsIncludes lowerCaseMessage "api key not valid" = true) then
    ("API Key is invalid or expired. Please try again or check your API key.",
      [Event.webhook error, Event.dispatch "initiateAutoApiKeyClaim"])
  else
    (cannedMessage errorCode message, [Event.webhook error])

def Event.isWebhook : Event → Bool
  | Event.webhook _ => true
  | Event.dispatch _ => false

def Event.isDispatch : Event → Bool
  | Event.webhook _ => false
  | Event.dispatch _ => true

def handleApiError (error : RawError) : String × List Event :=
  classifyResult error (normalizeMessage error) (jsToLowerCase (normalizeMessage error))
    (detectErrorCode (normalizeMessage error) (jsToLowerCase (normalizeMessage error)))

def handleApiErrorE (error : RawError) : Except Unit (String × List Event) :=
  (detectErrorCodeE (normalizeMessage error) (jsToLowerCase (normalizeMessage error))).map
    (classifyResult error (normalizeMessage error) (jsToLowerCase (normalizeMessage error)))

/-- Helper: every run of the final classification step produces one of exactly three
result shapes: the Veo recovery pair, the API-key recovery pair, or a canned or
fallback message with no dispatch. -/
theorem classifyResult_shape (e : RawError) (m l : String) (code : Option String) :
    classifyResult e m l code =
      ("VEO authorization failed. Please try again or check your API key.",
        [Event.webhook e, Event.dispatch "initiateAutoVeoKeyClaim"]) ∨
    classifyResult e m l code =
      ("API Key is invalid or expired. Please try again or check your API key.",
        [Event.webhook e, Event.dispatch "initiateAutoApiKeyClaim"]) ∨
    classifyResult e m l code = (cannedMessage code m, [Event.webhook e]) := by
  unfold classifyResult
  split
  · exact Or.inl rfl
  · split
    · exact Or.inr (Or.inl rfl)
    · exact Or.inr (Or.inr rfl)

/-- Helper: the canned-message switch, including the first-line fallback, never
returns a string longer than 150 characters. -/
theorem cannedMessage_length (code : Option String) (m : String) :
    (cannedMessage code m).length ≤ 150 := by
  unfold cannedMessage
  split
  · decide
  · split
    · decide
    · split
      · decide
      · split
        · decide
        · unfold defaultFallback
          split
          · decide
          · rename_i h
            push_neg at h
            exact h.1

/-- Helper: the exception-aware code detection always succeeds and agrees with the
pure detection, because the try block around JSON.parse catches the only throw. -/
theorem detectErrorCodeE_eq (m l : String) :
    detectErrorCodeE m l = Except.ok (detectErrorCode m l) := by
  unfold detectErrorCodeE detectErrorCode
  split
  · rfl
  · split
    · rfl
    · unfold extractJsonCode
      cases h : extractJsonCodeE m with
      | ok r => simp [h, Except.tryCatch, Except.map]
      | error err => simp [h, Except.tryCatch, Except.map]

/-- C1: for every input value, classify returns a string and never raises: the
exception-aware embedding handleApiErrorE, in which jsonParseTop may throw inside
extractJsonCodeE and the surrounding Except.tryCatch swallows the failure so that
classification falls through to the next heuristic, always returns Except.ok of
the pure result. -/
theorem handleApiError_total (e : RawError) :
    handleApiErrorE e = Except.ok (handleApiError e) := by
  unfold handleApiErrorE handleApiError
  rw [detectErrorCodeE_eq]
  rfl

/-- C2: the notification sink receives the raw error exactly once per call and
before any other observable effect: the trace starts with the webhook event and
the webhook events of the whole trace are exactly that one, for every input and
hence regardless of the classification outcome. -/
theorem webhook_exactly_once (e : RawError) :
    ((handleApiError e).2).head? = some (Event.webhook e) ∧
    ((handleApiError e).2).filter Event.isWebhook = [Event.webhook e] := by
  unfold handleApiError
  rcases classifyResult_shape e (normalizeMessage e) (jsToLowerCase (normalizeMessage e))
      (detectErrorCode (normalizeMessage e) (jsToLowerCase (normalizeMessage e))) with h | h | h <;>
    rw [h] <;> exact ⟨rfl, rfl⟩

/-- C7: per call, at most one event-bus publish occurs, and any published signal
is one of the two fixed recovery signals: the dispatch events of the trace are
either empty or exactly one of the two singletons. -/
theorem at_most_one_dispatch (e : RawError) :
    ((handleApiError e).2).filter Event.isDispatch = [] ∨
    ((handleApiError e).2).filter Event.isDispatch = [Event.dispatch "initiateAutoVeoKeyClaim"] ∨
    ((handleApiError e).2).filter Event.isDispatch = [Event.dispatch "initiateAutoApiKeyClaim"] := by
  unfold handleApiError
  rcases classifyResult_shape e (normalizeMessage e) (jsToLowerCase (normalizeMessage e))
      (detectErrorCode (normalizeMessage e) (jsToLowerCase (normalizeMessage e))) with h | h | h <;>
    rw [h]
  · exact Or.inr (Or.inl rfl)
  · exact Or.inr (Or.inr rfl)
  · exact Or.inl rfl

/-- C9: for every input, the returned display string has length at most 150
characters: every canned and recovery message is shorter, and the first-line
fallback is replaced by the generic message when the first line exceeds 150
characters. -/
theorem result_length_le_150 (e : RawError) :
    (handleApiError e).1.length ≤ 150 := by
  unfold handleApiError
  rcases classifyResult_shape e (normalizeMessage e) (jsToLowerCase (normalizeMessage e))
      (detectErrorCode (normalizeMessage e) (jsToLowerCase (normalizeMessage e))) with h | h | h <;>
    rw [h]
  · exact (by decide :
      ("VEO authorization failed. Please try again or check your API key." : String).length ≤ 150)
  · exact (by decide :
      ("API Key is invalid or expired. Please try again or check your API key." : String).length ≤ 150)
  · exact cannedMessage_length _ _

/-- C3: whenever the lower-cased normalized message contains the phrase resource
exhausted or the phrase quota exceeded, the derived code is 429 regardless of any
other numeric code in the text, and the returned display string is the
capacity-limit message. -/
theorem resource_exhausted_gives_429 (e : RawError)
    (h : jsIncludes (jsToLowerCase (normalizeMessage e)) "resource exhausted" = true ∨
         jsIncludes (jsToLowerCase (normalizeMessage e)) "quota exceeded" = true) :
    detectErrorCode (normalizeMessage e) (jsToLowerCase (normalizeMessage e)) = some "429" ∧
    (handleApiError e).1 = "Server Penuh. Sila tunggu sebentar sebelum mencuba lagi." := by
  have hc : detectErrorCode (normalizeMessage e) (jsToLowerCase (normalizeMessage e)) = some "429" := by
    unfold detectErrorCode
    rw [if_pos h]
  refine ⟨hc, ?_⟩
  unfold handleApiError
  rw [hc]
  unfold classifyResult
  rw [if_neg (by rintro ⟨h1 | h1, -⟩ <;> exact absurd h1 (by decide)),
      if_neg (by rintro ((h1 | h1) | ⟨h1, -⟩) <;> exact absurd h1 (by decide))]
  show cannedMessage (some "429") (normalizeMessage e) = _
  unfold cannedMessage
  rw [if_neg (by decide), if_pos rfl]

/-- Witness for C3 at the concrete input Resource Exhausted [500], whose text also
contains the numeric code 500. -/
theorem resource_exhausted_gives_429_witness :
    detectErrorCode (normalizeMessage (RawError.errObj "Resource Exhausted [500]"))
        (jsToLowerCase (normalizeMessage (RawError.errObj "Resource Exhausted [500]"))) = some "429" ∧
    (handleApiError (RawError.errObj "Resource Exhausted [500]")).1 =
      "Server Penuh. Sila tunggu sebentar sebelum mencuba lagi." :=
  resource_exhausted_gives_429 (RawError.errObj "Resource Exhausted [500]") (Or.inl (by decide))

/-- C4: whenever the derived code is 403 or 401 and the lower-cased message
contains the phrase veo auth token, classify publishes initiateAutoVeoKeyClaim and
returns the fixed Veo authorization-failure message, skipping the canned-message
switch. -/
theorem veo_code_recovery (e : RawError)
    (h1 : detectErrorCode (normalizeMessage e) (jsToLowerCase (normalizeMessage e)) = some "403" ∨
          detectErrorCode (normalizeMessage e) (jsToLowerCase (normalizeMessage e)) = some "401")
    (h2 : jsIncludes (jsToLowerCase (normalizeMessage e)) "veo auth token" = true) :
    handleApiError e =
      ("VEO authorization failed. Please try again or check your API key.",
        [Event.webhook e, Event.dispatch "initiateAutoVeoKeyClaim"]) := by
  unfold handleApiError classifyResult
  rw [if_pos ⟨h1, h2⟩]

/-- Witness for C4 at a concrete input that derives code 403 via the
permission-denied keyword and contains the Veo phrase. -/
theorem veo_code_recovery_witness :
    handleApiError (RawError.errObj "permission denied veo auth token") =
      ("VEO authorization failed. Please try again or check your API key.",
        [Event.webhook (RawError.errObj "permission denied veo auth token"),
          Event.dispatch "initiateAutoVeoKeyClaim"]) :=
  veo_code_recovery (RawError.errObj "permission denied veo auth token")
    (Or.inl (by decide)) (by decide)

/-- C5: whenever the derived code is 403 or 401 without the Veo phrase, or the
derived code is 400 and the lower-cased message contains the phrase api key not
valid, classify publishes initiateAutoApiKeyClaim and returns the fixed
invalid-or-expired-API-key message. -/
theorem api_key_recovery (e : RawError)
    (h : ((detectErrorCode (normalizeMessage e) (jsToLowerCase (normalizeMessage e)) = some "403" ∨
           detectErrorCode (normalizeMessage e) (jsToLowerCase (normalizeMessage e)) = some "401") ∧
          jsIncludes (jsToLowerCase (normalizeMessage e)) "veo auth token" = false) ∨
         (detectErrorCode (normalizeMessage e) (jsToLowerCase (normalizeMessage e)) = some "400" ∧
          jsIncludes (jsToLowerCase (normalizeMessage e)) "api key not valid" = true)) :
    handleApiError e =
      ("API Key is invalid or expired. Please try again or check your API key.",
        [Event.webhook e, Event.dispatch "initiateAutoApiKeyClaim"]) := by
  unfold handleApiError classifyResult
  rcases h with ⟨h1, h2⟩ | ⟨h1, h2⟩
  · rw [if_neg (by rintro ⟨-, hv⟩; rw [h2] at hv; exact Bool.noConfusion hv),
        if_pos (Or.inl h1)]
  · rw [if_neg (by rintro ⟨hv | hv, -⟩ <;> rw [h1] at hv <;> exact absurd hv (by decide)),
        if_pos (Or.inr ⟨h1, h2⟩)]

/-- Witness for C5 at a concrete input that derives code 400 via the safety-filter
keywords while containing the API-key phrase: the API-key message wins over the
safety-filter message. -/
theorem api_key_recovery_witness :
    handleApiError (RawError.errObj "bad request filter api key not valid") =
      ("API Key is invalid or expired. Please try again or check your API key.",
        [Event.webhook (RawError.errObj "bad request filter api key not valid"),
          Event.dispatch "initiateAutoApiKeyClaim"]) :=
  api_key_recovery (RawError.errObj "bad request filter api key not valid")
    (Or.inr ⟨by decide, by decide⟩)

/-- C6: when the priority keyword pass produces no code, the JSON extraction
result is used as the error code whenever it yields one: extractJsonCode locates
the brace span, parses it with the JSON.parse model, applies the optional-chain
lookup of error.code with the truthiness test, takes the String form of the value,
and ignores parse failures. -/
theorem json_code_used (message c : String)
    (h1 : ¬ (jsIncludes (jsToLowerCase message) "resource exhausted" = true ∨
             jsIncludes (jsToLowerCase message) "quota exceeded" = true))
    (h2 : ¬ (jsIncludes (jsToLowerCase message) "bad request" = true ∧
             (jsIncludes (jsToLowerCase message) "safety" = true ∨
              jsIncludes (jsToLowerCase message) "filter" = true)))
    (h3 : extractJsonCode message = some c) :
    detectErrorCode message (jsToLowerCase message) = some c := by
  unfold detectErrorCode
  rw [if_neg h1, if_neg h2, h3]

/-- Witness for C6: the concrete message consisting of a JSON object with nested
error code 403 and no keyword match classifies as 403. -/
theorem json_code_used_witness :
    detectErrorCode "\x7b\"error\":\x7b\"code\":403\x7d\x7d"
        (jsToLowerCase "\x7b\"error\":\x7b\"code\":403\x7d\x7d") = some "403" :=
  json_code_used "\x7b\"error\":\x7b\"code\":403\x7d\x7d" "403"
    (by decide) (by decide) (by decide)

/-- C8 counterexample: a message with no recognizable code whose first line is
exactly 40 characters long but contains the vendor tag [GoogleGenerativeAI Error]
is replaced by the generic message, not returned verbatim, refuting the claim as
stated. -/
theorem first_line_40_counterexample :
    detectErrorCode "[GoogleGenerativeAI Error] aaaaaaaaaaaaa"
        (jsToLowerCase "[GoogleGenerativeAI Error] aaaaaaaaaaaaa") = none ∧
    (jsFirstLine "[GoogleGenerativeAI Error] aaaaaaaaaaaaa").length = 40 ∧
    (handleApiError (RawError.errObj "[GoogleGenerativeAI Error] aaaaaaaaaaaaa")).1 ≠
      jsFirstLine "[GoogleGenerativeAI Error] aaaaaaaaaaaaa" := by
  decide

/-- C8 as amended: for every input with no recognizable error code whose first
line is 40 characters long and does not contain the vendor tag
[GoogleGenerativeAI Error], classify returns that first line unmodified. -/
theorem first_line_40_verbatim (e : RawError)
    (h1 : detectErrorCode (normalizeMessage e) (jsToLowerCase (normalizeMessage e)) = none)
    (h2 : (jsFirstLine (normalizeMessage e)).length = 40)
    (h3 : jsIncludes (jsFirstLine (normalizeMessage e)) "[GoogleGenerativeAI Error]" = false) :
    (handleApiError e).1 = jsFirstLine (normalizeMessage e) := by
  unfold handleApiError classifyResult
  rw [h1]
  rw [if_neg (by rintro ⟨hv | hv, -⟩ <;> exact Option.noConfusion hv),
      if_neg (by rintro ((hv | hv) | ⟨hv, -⟩) <;> exact Option.noConfusion hv)]
  show cannedMessage none (normalizeMessage e) = _
  unfold cannedMessage
  rw [if_neg (by decide), if_neg (by decide), if_neg (by decide), if_neg (by decide)]
  unfold defaultFallback
  have hng : ¬ (150 < (jsFirstLine (normalizeMessage e)).length ∨
      jsIncludes (jsFirstLine (normalizeMessage e)) "[GoogleGenerativeAI Error]" = true) := by
    rintro (hlt | htag)
    · rw [h2] at hlt
      exact absurd hlt (by decide)
    · rw [h3] at htag
      exact Bool.noConfusion htag
  rw [if_neg hng]

/-- Witness for the amended C8 at a concrete 40-character message with no
recognizable code and no vendor tag. -/
theorem first_line_40_verbatim_witness :
    (handleApiError (RawError.errObj "Something went wrong while working hard.")).1 =
      jsFirstLine (normalizeMessage (RawError.errObj "Something went wrong while working hard.")) :=
  first_line_40_verbatim (RawError.errObj "Something went wrong while working hard.")
    (by decide) (by decide) (by decide)

/-- C10 counterexample: when the raw message is itself the fixed Veo
authorization-failure string, classify derives no code, returns that exact string
through the first-line fallback, and publishes nothing, so returning the fixed
string does not imply that the signal was dispatched. -/
theorem dispatch_return_iff_counterexample :
    (handleApiError (RawError.errObj
        "VEO authorization failed. Please try again or check your API key.")).1 =
      "VEO authorization failed. Please try again or check your API key." ∧
    Event.dispatch "initiateAutoVeoKeyClaim" ∉
      (handleApiError (RawError.errObj
        "VEO authorization failed. Please try again or check your API key.")).2 := by
  decide

/-- C10 as amended: dispatching initiateAutoVeoKeyClaim implies the Veo
authorization-failure string is returned, dispatching initiateAutoApiKeyClaim
implies the invalid-or-expired-API-key string is returned, and every dispatched
signal is one of those two names; the converse implications fail because the
first-line fallback can return either fixed string verbatim without a dispatch. -/
theorem dispatch_implies_fixed_message (e : RawError) :
    (Event.dispatch "initiateAutoVeoKeyClaim" ∈ (handleApiError e).2 →
      (handleApiError e).1 =
        "VEO authorization failed. Please try again or check your API key.") ∧
    (Event.dispatch "initiateAutoApiKeyClaim" ∈ (handleApiError e).2 →
      (handleApiError e).1 =
        "API Key is invalid or expired. Please try again or check your API key.") ∧
    (∀ s, Event.dispatch s ∈ (handleApiError e).2 →
      s = "initiateAutoVeoKeyClaim" ∨ s = "initiateAutoApiKeyClaim") := by
  unfold handleApiError
  rcases classifyResult_shape e (normalizeMessage e) (jsToLowerCase (normalizeMessage e))
      (detectErrorCode (normalizeMessage e) (jsToLowerCase (normalizeMessage e))) with h | h | h <;>
    rw [h] <;> refine ⟨?_, ?_, ?_⟩
  · intro _; rfl
  · intro hm
    rcases List.mem_cons.mp hm with hm | hm
    · exact Event.noConfusion hm
    rcases List.mem_cons.mp hm with hm | hm
    · exact absurd hm (by decide)
    · exact absurd hm (List.not_mem_nil _)
  · intro s hs
    rcases List.mem_cons.mp hs with hs | hs
    · exact Event.noConfusion hs
    rcases List.mem_cons.mp hs with hs | hs
    · exact Or.inl (by injection hs)
    · exact absurd hs (List.not_mem_nil _)
  · intro hm
    rcases List.mem_cons.mp hm with hm | hm
    · exact Event.noConfusion hm
    rcases List.mem_cons.mp hm with hm | hm
    · exact absurd hm (by decide)
    · exact absurd hm (List.not_mem_nil _)
  · intro _; rfl
  · intro s hs
    rcases List.mem_cons.mp hs with hs | hs
    · exact Event.noConfusion hs
    rcases List.mem_cons.mp hs with hs | hs
    · exact Or.inr (by injection hs)
    · exact absurd hs (List.not_mem_nil _)
  · intro hm
    rcases List.mem_cons.mp hm with hm | hm
    · exact Event.noConfusion hm
    · exact absurd hm (List.not_mem_nil _)
  · intro hm
    rcases List.mem_cons.mp hm with hm | hm
    · exact Event.noConfusion hm
    · exact absurd hm (List.not_mem_nil _)
  · intro s hs
    rcases List.mem_cons.mp hs with hs | hs
    · exact Event.noConfusion hs
    · exact absurd hs (List.not_mem_nil _)

/-- Witness for the amended C10 at a concrete input that dispatches the Veo
signal. -/
theorem dispatch_implies_fixed_message_witness :
    (handleApiError (RawError.errObj "permission denied veo auth token")).1 =
      "VEO authorization failed. Please try again or check your API key." :=
  (dispatch_implies_fixed_message (RawError.errObj "permission denied veo auth token")).1
    (by decide)